import Mathlib

/-!
Shallow embedding of `src/app.py` (Happy Sweep PO Generator): a Streamlit
front end over one SQLite table `purchase_orders`.  Monetary amounts are
modelled as a whole number of fils (hundredths of an AED): the widget
`st.number_input("Amount (AED)", min_value=0.0, step=0.01)` only yields
non-negative values in hundredth steps, and every formatting site in the
code prints at most two decimals.  Timestamps and dates are carried as
opaque strings.
-/

namespace AutomaticPO

/-- One row of the `purchase_orders` table (schema from `create_table`,
`src/app.py` lines 22-31): `po_id` is the AUTOINCREMENT primary key,
`created_at` is assigned at insert time. -/
structure PORecord where
  po_id : Nat
  transaction_date : String
  transaction_name : String
  amountFils : Nat
  user_name : String
  notes : String
  payment_method : String
  created_at : String
deriving DecidableEq

/-- The client-supplied fields of a purchase order: everything of a row
except `po_id` and `created_at`, which the store assigns
(`add_po`, `src/app.py` lines 39-52). -/
structure POInput where
  transaction_date : String
  transaction_name : String
  amountFils : Nat
  user_name : String
  notes : String
  payment_method : String
deriving DecidableEq

/-- State of the SQLite table: the rows in insertion (rowid) order plus the
AUTOINCREMENT sequence value, i.e. the id the next insert will receive. -/
structure Store where
  rows : List PORecord
  nextId : Nat
deriving DecidableEq

/-- The freshly created table: no rows, AUTOINCREMENT assigns 1 first. -/
def Store.empty : Store := ⟨[], 1⟩

/-- The row persisted by the INSERT statement of `add_po`: the six input
fields, the engine-assigned id and the `datetime.now()` timestamp. -/
def mkRecord (id : Nat) (inp : POInput) (now : String) : PORecord :=
  { po_id := id
    transaction_date := inp.transaction_date
    transaction_name := inp.transaction_name
    amountFils := inp.amountFils
    user_name := inp.user_name
    notes := inp.notes
    payment_method := inp.payment_method
    created_at := now }

/-- Effect of the INSERT in `add_po` (`src/app.py` lines 44-48): append a
new row with the next AUTOINCREMENT id and bump the sequence. -/
def Store.insert (s : Store) (inp : POInput) (now : String) : Store :=
  ⟨s.rows ++ [mkRecord s.nextId inp now], s.nextId + 1⟩

/-- Effect of `DELETE FROM purchase_orders WHERE po_id = ?` in `delete_po`
(`src/app.py` line 59): drop every row whose id matches; AUTOINCREMENT
state is untouched, so ids are never reused. -/
def Store.deleteById (s : Store) (i : Nat) : Store :=
  ⟨s.rows.filter (fun r => r.po_id != i), s.nextId⟩

/-- `SELECT * FROM purchase_orders` (`src/app.py` line 136): the whole
table in rowid (insertion) order, no filtering, no pagination. -/
def listAll (s : Store) : List PORecord := s.rows

/-- A user action on the store, as driven by the interaction surface. -/
inductive Op where
  | add (inp : POInput) (now : String)
  | del (i : Nat)

/-- Apply one user action to the store. -/
def applyOp (s : Store) : Op → Store
  | .add inp now => s.insert inp now
  | .del i => s.deleteById i

/-- Run a sequence of user actions from the freshly created table: every
reachable store state arises this way. -/
def runOps (ops : List Op) : Store := ops.foldl applyOp Store.empty

/-! ## Report formatting (`main`, `src/app.py` lines 150-175) -/

/-- Python `str(n)` digits of the integer part, grouped in threes from the
right by commas, working on the reversed digit list. -/
def group3 : List Char → List Char
  | a :: b :: c :: d :: rest => a :: b :: c :: ',' :: group3 (d :: rest)
  | ds => ds

/-- Thousands grouping of a natural number, as Python `format(n, ",d")`. -/
def commaNat (n : Nat) : String :=
  String.mk ((group3 (toString n).data.reverse).reverse)

/-- Two decimal digits, left-padded with a zero. -/
def pad2 (n : Nat) : String :=
  if n < 10 then "0" ++ toString n else toString n

/-- Python `f"{amount:,.2f}"` on an amount held in fils: thousands-grouped
integer part, a point, exactly two decimals. -/
def fmtComma2 (fils : Nat) : String :=
  commaNat (fils / 100) ++ "." ++ pad2 (fils % 100)

/-- Python `f"{po_id:04d}"`: decimal digits left-padded with zeros to at
least four characters. -/
def padZero4 (n : Nat) : String :=
  String.mk (List.replicate (4 - (toString n).length) '0') ++ toString n

/-- Subject line of the notification email (`src/app.py` line 151):
`f"PO-{po_id:04d}: {transaction_name} - AED {amount:,.2f}"`. -/
def subjectOf (r : PORecord) : String :=
  "PO-" ++ padZero4 r.po_id ++ ": " ++ r.transaction_name
    ++ " - AED " ++ fmtComma2 r.amountFils

/-! ## CSV export (`main`, `src/app.py` lines 141-142 and 175) -/

/-- Header of `df.to_csv(index=False)` after the reindex to
`columns_order` (`src/app.py` line 141). -/
def csvHeader : String :=
  "transaction_date,po_id,transaction_name,amount,user_name,payment_method,notes,created_at"

/-- Whether pandas minimal quoting must quote this field. -/
def needsQuote (s : String) : Bool :=
  s.data.any (fun c => c = ',' || c = '"' || c = '\n' || c = '\r')

/-- One CSV field under pandas default QUOTE_MINIMAL: wrapped in double
quotes, inner quotes doubled, only when a special character occurs. -/
def csvField (s : String) : String :=
  if needsQuote s then "\"" ++ s.replace "\"" "\"\"" ++ "\"" else s

/-- The REAL `amount` column as pandas prints a two-decimal float: an
integral value prints with a single trailing zero, a tenth prints one
decimal, otherwise two. -/
def amountCell (fils : Nat) : String :=
  if fils % 100 = 0 then toString (fils / 100) ++ ".0"
  else if fils % 10 = 0 then toString (fils / 100) ++ "." ++ toString (fils % 100 / 10)
  else toString (fils / 100) ++ "." ++ pad2 (fils % 100)

/-- One data row of the CSV, fields in the reindexed `columns_order`. -/
def csvRow (r : PORecord) : String :=
  String.intercalate ","
    ([r.transaction_date, toString r.po_id, r.transaction_name,
      amountCell r.amountFils, r.user_name, r.payment_method,
      r.notes, r.created_at].map csvField)

/-- The CSV records of `df.to_csv(index=False)`: the header then one
record per row, in row order, none dropped. -/
def toCsvLines (rs : List PORecord) : List String :=
  csvHeader :: rs.map csvRow

/-- The serialized CSV text: records joined by a newline, with the
trailing newline pandas emits after the last record. -/
def toCsv (rs : List PORecord) : String :=
  String.intercalate "\n" (toCsvLines rs) ++ "\n"

/-! ## Interaction surface (`main`, `src/app.py` lines 126-132 and 139-200) -/

/-- A user-visible message: `st.success`, `st.error` or `st.info`. -/
inductive Notice where
  | success (msg : String)
  | error (msg : String)
  | info (msg : String)
deriving DecidableEq

/-- Handler of the `Add Purchase Order` button (`src/app.py` lines
126-132).  Python truthiness of `transaction_name` is non-emptiness; the
number input is non-negative, so `amount > 0` is `amountFils != 0`. -/
def submitAdd (s : Store) (form : POInput) (now : String) : Store × Notice :=
  if form.transaction_name ≠ "" ∧ form.amountFils > 0 then
    (s.insert form now, .success "Purchase Order Added Successfully!")
  else
    (s, .error "Please enter a valid transaction name and amount.")

/-- What the main view produces from the fetched record list: either the
full control set (email subject from the last row, CSV artifact, the
delete selectbox ids) or the empty-state info message. -/
inductive RenderOut where
  | controls (subject : String) (csvData : String) (deleteIds : List Nat)
  | emptyInfo (msg : String)
deriving DecidableEq

/-- The `if not df.empty: ... else: st.info(...)` branch of `main`
(`src/app.py` lines 139-200).  The email subject is built from
`df.iloc[-1]`, the last row in list order, only inside the non-empty
branch. -/
def render (rs : List PORecord) : RenderOut :=
  match rs with
  | [] => .emptyInfo "No purchase orders available."
  | r :: rest =>
      .controls (subjectOf ((r :: rest).getLast (List.cons_ne_nil r rest)))
        (toCsv (r :: rest)) ((r :: rest).map PORecord.po_id)

/-! ## Connection and failure model

Each store helper calls `create_connection()` (which catches
`sqlite3.Error`, shows `st.error` and returns `None`), then runs its
statement.  `create_table`, `add_po` and `delete_po` wrap the statement in
`try/except sqlite3.Error/finally: conn.close()`.  The fetch in `main`
(lines 135-137) has no `try` at all and closes the connection only after
`pd.read_sql_query` returns.  Faults are injected explicitly: whether
`sqlite3.connect` raises and whether the SQL statement raises. -/

/-- Injected storage faults: `connectFail` makes `sqlite3.connect` raise,
`execFail` makes the SQL statement (execute or read) raise. -/
structure Faults where
  connectFail : Bool
  execFail : Bool
deriving DecidableEq

/-- Connections opened and connections closed during one operation. -/
structure ConnStats where
  opened : Nat
  closed : Nat
deriving DecidableEq

/-- Outcome of one storage operation: the result (`Except.error` is an
uncaught Python exception crashing the interaction), the notices shown,
and the connection accounting. -/
structure OpOutcome (α : Type) where
  result : Except String α
  notices : List Notice
  conns : ConnStats

/-- `create_connection` fails: the caught error notice it displays. -/
def connErrNotice : Notice := .error "Database Connection Error"

/-- `create_table` (`src/app.py` lines 16-37) under injected faults: a
`None` connection skips the body; a statement fault is caught and shown;
`finally` closes the connection in both executing branches.  The table
schema itself is not part of the store state, so the store is returned
unchanged. -/
def createTableF (s : Store) (f : Faults) : OpOutcome Store :=
  if f.connectFail then ⟨.ok s, [connErrNotice], ⟨0, 0⟩⟩
  else if f.execFail then ⟨.ok s, [.error "Error Creating Table"], ⟨1, 1⟩⟩
  else ⟨.ok s, [], ⟨1, 1⟩⟩

/-- `add_po` (`src/app.py` lines 39-52) under injected faults: on any
fault the row is not committed, an error notice is shown, and `finally`
closes the opened connection; no exception escapes. -/
def addPoF (s : Store) (f : Faults) (inp : POInput) (now : String) :
    OpOutcome Store :=
  if f.connectFail then ⟨.ok s, [connErrNotice], ⟨0, 0⟩⟩
  else if f.execFail then ⟨.ok s, [.error "Error Adding PO"], ⟨1, 1⟩⟩
  else ⟨.ok (s.insert inp now), [], ⟨1, 1⟩⟩

/-- `delete_po` (`src/app.py` lines 54-64) under injected faults:
same catch-and-close discipline as `add_po`. -/
def deletePoF (s : Store) (f : Faults) (i : Nat) : OpOutcome Store :=
  if f.connectFail then ⟨.ok s, [connErrNotice], ⟨0, 0⟩⟩
  else if f.execFail then ⟨.ok s, [.error "Error Deleting PO"], ⟨1, 1⟩⟩
  else ⟨.ok (s.deleteById i), [], ⟨1, 1⟩⟩

/-- The fetch in `main` (`src/app.py` lines 135-137), which has no
`try/except` and no `finally`: with a connection fault,
`create_connection` shows its notice and returns `None`, and
`pd.read_sql_query(..., None)` then raises uncaught; with a statement
fault, the read raises uncaught before `conn.close()` runs, leaking the
open connection.  Only the success path closes the connection. -/
def fetchPosF (s : Store) (f : Faults) : OpOutcome (List PORecord) :=
  if f.connectFail then
    ⟨.error "read_sql_query on a None connection", [connErrNotice], ⟨0, 0⟩⟩
  else if f.execFail then ⟨.error "DatabaseError", [], ⟨1, 0⟩⟩
  else ⟨.ok s.rows, [], ⟨1, 1⟩⟩

/-! ## Concrete sample data for witnesses -/

/-- A concrete stored record matching the subject test vector of the
specification: id 7, name `Supplies`, amount 1234.50 AED. -/
def demoRec : PORecord :=
  ⟨7, "2024-01-01", "Supplies", 123450, "Rami", "", "Cash", "2024-01-01 10:00:00"⟩

/-- Form input of the concrete scenario in the specification:
date 2024-01-01, name `Cleaning Supplies`, amount 150.00, user Rami,
payment Cash. -/
def demoInput1 : POInput := ⟨"2024-01-01", "Cleaning Supplies", 15000, "Rami", "", "Cash"⟩

/-- A second form input for the concrete scenario. -/
def demoInput2 : POInput := ⟨"2024-01-02", "Mops", 20000, "Tariq", "", "Card"⟩

/-- An invalid form input: empty transaction name. -/
def demoBadInput : POInput := ⟨"2024-01-01", "", 100, "Rami", "", "Cash"⟩

/-- The concrete scenario of the specification: add two records to the
fresh table, then delete the first id. -/
def demoScenario : List Op :=
  [.add demoInput1 "t1", .add demoInput2 "t2", .del 1]

/-- A two-row store used by the deletion witness. -/
def demoStore : Store := ⟨[mkRecord 1 demoInput1 "t1", mkRecord 2 demoInput2 "t2"], 3⟩

/-! ## Store invariants -/

/-- Well-formedness of a table state: every assigned id is below the
AUTOINCREMENT sequence value, and the rows carry strictly increasing ids
in list order. -/
def Store.WF (s : Store) : Prop :=
  (∀ r ∈ s.rows, r.po_id < s.nextId) ∧
    s.rows.Pairwise (fun a b => a.po_id < b.po_id)

theorem Store.wf_empty : Store.empty.WF := by
  constructor
  · intro r hr; simp [Store.empty] at hr
  · simp [Store.empty]

theorem Store.wf_insert (s : Store) (inp : POInput) (now : String)
    (h : s.WF) : (s.insert inp now).WF := by
  obtain ⟨hlt, hsort⟩ := h
  constructor
  · intro r hr
    simp only [Store.insert, List.mem_append, List.mem_singleton] at hr ⊢
    rcases hr with hr | hr
    · exact Nat.lt_succ_of_lt (hlt r hr)
    · subst hr; exact Nat.lt_succ_self _
  · simp only [Store.insert]
    rw [List.pairwise_append]
    refine ⟨hsort, List.pairwise_singleton _ _, ?_⟩
    intro a ha b hb
    simp only [List.mem_singleton] at hb
    subst hb
    exact hlt a ha

theorem Store.wf_delete (s : Store) (i : Nat) (h : s.WF) :
    (s.deleteById i).WF := by
  obtain ⟨hlt, hsort⟩ := h
  constructor
  · intro r hr
    simp only [Store.deleteById] at hr
    exact hlt r (List.mem_of_mem_filter hr)
  · exact hsort.sublist (List.filter_sublist _)

theorem wf_applyOp (s : Store) (op : Op) (h : s.WF) : (applyOp s op).WF := by
  cases op with
  | add inp now => exact Store.wf_insert s inp now h
  | del i => exact Store.wf_delete s i h

theorem wf_foldl (ops : List Op) (s : Store) (h : s.WF) :
    (ops.foldl applyOp s).WF := by
  induction ops generalizing s with
  | nil => exact h
  | cons op rest ih => exact ih (applyOp s op) (wf_applyOp s op h)

theorem wf_runOps (ops : List Op) : (runOps ops).WF :=
  wf_foldl ops Store.empty Store.wf_empty

/-- In a list of rows with pairwise distinct ids, deleting an id that is
present removes exactly one row. -/
theorem length_filter_ne (i : Nat) (l : List PORecord)
    (hnd : l.Pairwise (fun a b => a.po_id ≠ b.po_id))
    (hm : ∃ r ∈ l, r.po_id = i) :
    (l.filter (fun r => r.po_id != i)).length + 1 = l.length := by
  induction l with
  | nil => simp at hm
  | cons r t ih =>
    rw [List.pairwise_cons] at hnd
    obtain ⟨hr, ht⟩ := hnd
    by_cases hri : r.po_id = i
    · have hkeep : ∀ x ∈ t, (x.po_id != i) = true := by
        intro x hx
        have : r.po_id ≠ x.po_id := hr x hx
        simp only [bne_iff_ne, ne_eq]
        intro hxi
        exact this (by rw [hri, hxi])
      simp only [List.filter_cons, hri, bne_self_eq_false, Bool.false_eq_true,
        if_false, List.filter_eq_self.mpr hkeep, List.length_cons]
    · obtain ⟨w, hw, hwi⟩ := hm
      rcases List.mem_cons.mp hw with hwr | hwt
      · exact absurd (hwr ▸ hwi) hri
      · have : (r.po_id != i) = true := by simpa [bne_iff_ne] using hri
        simp only [List.filter_cons, this, if_true, List.length_cons]
        rw [ih ht ⟨w, hwt, hwi⟩]

/-! ## Claims -/

/-- C1: for every non-empty record list the notification is built from the
last record in list order, and its subject is `PO-` followed by the id
zero-padded to 4 digits, a colon and space, the transaction name,
` - AED `, and the amount with thousands separator and exactly two
decimals; in particular a record with id 7, name `Supplies` and amount
1234.50 yields exactly `PO-0007: Supplies - AED 1,234.50`. -/
theorem notification_subject_from_last (rs : List PORecord) (last : PORecord)
    (h : rs.getLast? = some last) :
    (∃ csvData ids, render rs = .controls (subjectOf last) csvData ids) ∧
    subjectOf last = "PO-" ++ padZero4 last.po_id ++ ": "
      ++ last.transaction_name ++ " - AED " ++ fmtComma2 last.amountFils ∧
    (∀ date user nts pm ca,
      subjectOf ⟨7, date, "Supplies", 123450, user, nts, pm, ca⟩ =
        "PO-0007: " ++ "Supplies" ++ " - AED 1,234.50") := by
  refine ⟨?_, rfl, ?_⟩
  · cases rs with
    | nil => simp at h
    | cons r rest =>
        have hne : r :: rest ≠ [] := List.cons_ne_nil r rest
        have hlast : (r :: rest).getLast hne = last := by
          rw [List.getLast?_eq_getLast _ hne] at h
          exact Option.some.inj h
        exact ⟨toCsv (r :: rest), (r :: rest).map PORecord.po_id, by
          simp only [render, hlast]⟩
  · intro date user nts pm ca
    simp only [subjectOf]
    decide

/-- Witness for C1 at the concrete record of the specification. -/
theorem notification_subject_from_last_witness :
    [demoRec].getLast? = some demoRec ∧
    subjectOf demoRec = "PO-0007: " ++ "Supplies" ++ " - AED 1,234.50" :=
  ⟨rfl, (notification_subject_from_last [demoRec] demoRec rfl).2.2
    "2024-01-01" "Rami" "" "Cash" "2024-01-01 10:00:00"⟩

/-- C2: the CSV export has exactly one record per row plus a header, so
N + 1 lines for N records, the header names the fixed column order
transaction_date, po_id, transaction_name, amount, user_name,
payment_method, notes, created_at, and no row is filtered out. -/
theorem csv_export_shape (rs : List PORecord) :
    (toCsvLines rs).length = rs.length + 1 ∧
    toCsvLines rs = csvHeader :: rs.map csvRow ∧
    csvHeader =
      "transaction_date,po_id,transaction_name,amount,user_name,payment_method,notes,created_at" ∧
    toCsv rs = String.intercalate "\n" (csvHeader :: rs.map csvRow) ++ "\n" := by
  refine ⟨?_, rfl, rfl, rfl⟩
  simp [toCsvLines]

/-- C3: on every reachable store state, list-all returns the whole table,
with ids strictly ascending in list order (insertion order), no
pagination and no filtering. -/
theorem list_all_complete_sorted (ops : List Op) :
    listAll (runOps ops) = (runOps ops).rows ∧
    (listAll (runOps ops)).Pairwise (fun a b => a.po_id < b.po_id) :=
  ⟨rfl, (wf_runOps ops).2⟩

/-- C4: inserting a record with valid fields appends exactly one row:
list-all grows by one, the stored row repeats every input field, and the
store assigns the id (the AUTOINCREMENT value) and the creation
timestamp; the fault-free `add_po` path performs exactly this insert. -/
theorem insert_valid_appends (s : Store) (inp : POInput) (now : String)
    (hname : inp.transaction_name ≠ "") (hamt : 0 < inp.amountFils) :
    listAll (s.insert inp now) = listAll s ++ [mkRecord s.nextId inp now] ∧
    (listAll (s.insert inp now)).length = (listAll s).length + 1 ∧
    (mkRecord s.nextId inp now).transaction_date = inp.transaction_date ∧
    (mkRecord s.nextId inp now).transaction_name = inp.transaction_name ∧
    (mkRecord s.nextId inp now).amountFils = inp.amountFils ∧
    (mkRecord s.nextId inp now).user_name = inp.user_name ∧
    (mkRecord s.nextId inp now).notes = inp.notes ∧
    (mkRecord s.nextId inp now).payment_method = inp.payment_method ∧
    (mkRecord s.nextId inp now).po_id = s.nextId ∧
    (mkRecord s.nextId inp now).created_at = now ∧
    (addPoF s ⟨false, false⟩ inp now).result = .ok (s.insert inp now) := by
  refine ⟨rfl, ?_, rfl, rfl, rfl, rfl, rfl, rfl, rfl, rfl, rfl⟩
  simp [listAll, Store.insert]

/-- Witness for C4 at the concrete scenario input on the empty store. -/
theorem insert_valid_appends_witness :
    demoInput1.transaction_name ≠ "" ∧ 0 < demoInput1.amountFils ∧
    (listAll (Store.empty.insert demoInput1 "t1")).length
      = (listAll Store.empty).length + 1 :=
  ⟨by decide, by decide,
    (insert_valid_appends Store.empty demoInput1 "t1"
      (by decide) (by decide)).2.1⟩

/-- C5: on a store whose rows carry pairwise distinct ids, deleting an id
that is present removes exactly that record and no other, shrinking
list-all by one; deleting an absent id leaves the store unchanged, and the
fault-free `delete_po` path raises no error. -/
theorem delete_semantics (s : Store) (i : Nat)
    (hnd : s.rows.Pairwise (fun a b => a.po_id ≠ b.po_id)) :
    ((∃ r ∈ listAll s, r.po_id = i) →
      (listAll (s.deleteById i)).length + 1 = (listAll s).length) ∧
    (∀ r ∈ listAll s, r.po_id ≠ i → r ∈ listAll (s.deleteById i)) ∧
    (∀ r ∈ listAll (s.deleteById i), r ∈ listAll s ∧ r.po_id ≠ i) ∧
    ((∀ r ∈ listAll s, r.po_id ≠ i) → s.deleteById i = s) ∧
    (deletePoF s ⟨false, false⟩ i).result = .ok (s.deleteById i) := by
  refine ⟨?_, ?_, ?_, ?_, rfl⟩
  · intro hm
    exact length_filter_ne i s.rows hnd hm
  · intro r hr hri
    simp only [listAll, Store.deleteById, List.mem_filter]
    exact ⟨hr, by simpa [bne_iff_ne] using hri⟩
  · intro r hr
    simp only [listAll, Store.deleteById, List.mem_filter, bne_iff_ne] at hr
    exact hr
  · intro hall
    have : s.rows.filter (fun r => r.po_id != i) = s.rows :=
      List.filter_eq_self.mpr fun r hr => by
        simpa [bne_iff_ne] using hall r hr
    cases s with
    | mk rows nextId => simpa [Store.deleteById] using this
  -- final conjunct closed by the refine above

/-- Witness for C5: delete id 1 from the two-row store of the scenario. -/
theorem delete_semantics_witness :
    (∃ r ∈ listAll demoStore, r.po_id = 1) ∧
    (listAll (demoStore.deleteById 1)).length + 1 = (listAll demoStore).length :=
  ⟨by decide,
    (delete_semantics demoStore 1 (by decide)).1 (by decide)⟩

/-- C6: the add handler inserts only when the form passes validation: an
empty name or a zero amount leaves the store untouched and shows the
validation error, while a non-empty name with positive amount performs the
insert and shows the success notice. -/
theorem submit_add_validation (s : Store) (form : POInput) (now : String) :
    (form.transaction_name = "" ∨ form.amountFils = 0 →
      submitAdd s form now =
        (s, .error "Please enter a valid transaction name and amount.") ∧
      listAll (submitAdd s form now).1 = listAll s) ∧
    (form.transaction_name ≠ "" ∧ 0 < form.amountFils →
      submitAdd s form now =
        (s.insert form now, .success "Purchase Order Added Successfully!")) := by
  constructor
  · intro h
    have hcond : ¬(form.transaction_name ≠ "" ∧ form.amountFils > 0) := by
      rcases h with h | h
      · exact fun hc => hc.1 h
      · exact fun hc => by omega
    rw [submitAdd, if_neg hcond]
    exact ⟨rfl, rfl⟩
  · intro h
    rw [submitAdd, if_pos h]

/-- Witness for C6: the empty-name form is rejected without mutation. -/
theorem submit_add_validation_witness :
    submitAdd Store.empty demoBadInput "t" =
      (Store.empty, .error "Please enter a valid transaction name and amount.") ∧
    listAll (submitAdd Store.empty demoBadInput "t").1 = listAll Store.empty :=
  (submit_add_validation Store.empty demoBadInput "t").1 (Or.inl rfl)

/-- C7 counterexample: a statement fault during the list-all fetch
(`src/app.py` lines 135-137) is NOT caught: the exception propagates as a
crash and no user-visible notice is produced for it, refuting the claim
that every storage operation converts failures to notices. -/
theorem fetch_failure_uncaught :
    (fetchPosF Store.empty ⟨false, true⟩).result = .error "DatabaseError" ∧
    (fetchPosF Store.empty ⟨false, true⟩).notices = [] :=
  ⟨rfl, rfl⟩

/-- C7 amended: schema creation, insert and delete catch every
storage-layer fault at the call site, convert it to a user-visible notice,
abort with the prior state unchanged and never crash; fault-free
operations succeed, but the list-all fetch is only crash-free when no
fault occurs. -/
theorem guarded_ops_catch_faults (s : Store) (f : Faults) (inp : POInput)
    (now : String) (i : Nat) :
    (createTableF s f).result = .ok s ∧
    (f.connectFail = true ∨ f.execFail = true →
      (addPoF s f inp now).result = .ok s ∧
      (addPoF s f inp now).notices ≠ [] ∧
      (deletePoF s f i).result = .ok s ∧
      (deletePoF s f i).notices ≠ [] ∧
      (createTableF s f).notices ≠ []) ∧
    (f.connectFail = false → f.execFail = false →
      (addPoF s f inp now).result = .ok (s.insert inp now) ∧
      (deletePoF s f i).result = .ok (s.deleteById i) ∧
      (fetchPosF s f).result = .ok (listAll s)) := by
  obtain ⟨cf, ef⟩ := f
  cases cf <;> cases ef <;>
    simp [createTableF, addPoF, deletePoF, fetchPosF, listAll, connErrNotice]

/-- Witness for amended C7: an execute fault in `add_po` and `delete_po`
is caught, noticed, and mutates nothing. -/
theorem guarded_ops_catch_faults_witness :
    (addPoF Store.empty ⟨false, true⟩ demoInput1 "t1").result = .ok Store.empty ∧
    (addPoF Store.empty ⟨false, true⟩ demoInput1 "t1").notices ≠ [] ∧
    (deletePoF Store.empty ⟨false, true⟩ 1).result = .ok Store.empty ∧
    (deletePoF Store.empty ⟨false, true⟩ 1).notices ≠ [] ∧
    (createTableF Store.empty ⟨false, true⟩).notices ≠ [] :=
  (guarded_ops_catch_faults Store.empty ⟨false, true⟩ demoInput1 "t1" 1).2.1
    (Or.inr rfl)

/-- C8 counterexample: when the read statement of the list-all fetch
faults, the connection opened at `src/app.py` line 135 is never closed
(line 137 is not reached and there is no `finally`), refuting the claim
that every operation releases its connection on all exit paths. -/
theorem fetch_leaks_connection :
    (fetchPosF Store.empty ⟨false, true⟩).conns.opened = 1 ∧
    (fetchPosF Store.empty ⟨false, true⟩).conns.closed = 0 :=
  ⟨rfl, rfl⟩

/-- C8 amended: schema creation, insert and delete close every connection
they open on every exit path, fault or not; the list-all fetch closes its
connection only when the read statement does not fault. -/
theorem connection_scoped_release (s : Store) (f : Faults) (inp : POInput)
    (now : String) (i : Nat) :
    (createTableF s f).conns.closed = (createTableF s f).conns.opened ∧
    (addPoF s f inp now).conns.closed = (addPoF s f inp now).conns.opened ∧
    (deletePoF s f i).conns.closed = (deletePoF s f i).conns.opened ∧
    (f.execFail = false →
      (fetchPosF s f).conns.closed = (fetchPosF s f).conns.opened) := by
  obtain ⟨cf, ef⟩ := f
  cases cf <;> cases ef <;>
    simp [createTableF, addPoF, deletePoF, fetchPosF]

/-- Witness for amended C8: with both faults injected, the guarded
operations still balance their connections. -/
theorem connection_scoped_release_witness :
    (addPoF Store.empty ⟨true, true⟩ demoInput1 "t1").conns.closed
      = (addPoF Store.empty ⟨true, true⟩ demoInput1 "t1").conns.opened ∧
    (fetchPosF Store.empty ⟨false, false⟩).conns.closed
      = (fetchPosF Store.empty ⟨false, false⟩).conns.opened :=
  ⟨(connection_scoped_release Store.empty ⟨true, true⟩ demoInput1 "t1" 1).2.1,
    (connection_scoped_release Store.empty ⟨false, false⟩ demoInput1 "t1" 1).2.2.2 rfl⟩

/-- C9: ids in any reachable store are strictly increasing, hence unique;
no operation rewrites an existing row (a row after any action is either an
untouched old row or the freshly inserted one, whose id is the current
AUTOINCREMENT value); the sequence value never decreases and each insert
advances it, so successive inserts get strictly increasing ids; and the
concrete scenario (add two, delete id 1) leaves exactly the second record
with its original id 2. -/
theorem id_uniqueness_monotonic (ops : List Op) (op : Op) :
    (runOps ops).rows.Pairwise (fun a b => a.po_id < b.po_id) ∧
    (∀ r ∈ (applyOp (runOps ops) op).rows,
      r ∈ (runOps ops).rows ∨
        ∃ inp now, op = .add inp now ∧
          r = mkRecord (runOps ops).nextId inp now) ∧
    (runOps ops).nextId ≤ (applyOp (runOps ops) op).nextId ∧
    (∀ inp now,
      (applyOp (runOps ops) (.add inp now)).nextId = (runOps ops).nextId + 1) ∧
    runOps [.add demoInput1 "t1"] = ⟨[mkRecord 1 demoInput1 "t1"], 2⟩ ∧
    runOps demoScenario = ⟨[mkRecord 2 demoInput2 "t2"], 3⟩ := by
  refine ⟨(wf_runOps ops).2, ?_, ?_, fun inp now => rfl, by decide, by decide⟩
  · intro r hr
    cases op with
    | add inp now =>
        simp only [applyOp, Store.insert, List.mem_append,
          List.mem_singleton] at hr
        rcases hr with hr | hr
        · exact Or.inl hr
        · exact Or.inr ⟨inp, now, rfl, hr⟩
    | del i =>
        exact Or.inl (List.mem_of_mem_filter hr)
  · cases op with
    | add inp now => exact Nat.le_succ _
    | del i => exact Nat.le_refl _

/-- Witness for C9: the scenario equalities extracted at a concrete
action list. -/
theorem id_uniqueness_monotonic_witness :
    runOps [.add demoInput1 "t1"] = ⟨[mkRecord 1 demoInput1 "t1"], 2⟩ ∧
    runOps demoScenario = ⟨[mkRecord 2 demoInput2 "t2"], 3⟩ :=
  ⟨(id_uniqueness_monotonic [] (.del 0)).2.2.2.2.1,
    (id_uniqueness_monotonic [] (.del 0)).2.2.2.2.2⟩

/-- C10: with no records the main view renders only the empty-state info
message (no notification, CSV or delete control); with records it renders
the controls, and the last-row access feeding the notification happens
only in that branch, where the last element provably exists. -/
theorem empty_state_render (rs : List PORecord) :
    (rs = [] → render rs = .emptyInfo "No purchase orders available.") ∧
    (rs ≠ [] → ∃ last, rs.getLast? = some last ∧
      render rs = .controls (subjectOf last) (toCsv rs)
        (rs.map PORecord.po_id)) := by
  cases rs with
  | nil =>
      exact ⟨fun _ => rfl, fun h => absurd rfl h⟩
  | cons r rest =>
      refine ⟨fun h => List.noConfusion h, fun _ => ?_⟩
      have hne : r :: rest ≠ [] := List.cons_ne_nil r rest
      exact ⟨(r :: rest).getLast hne, List.getLast?_eq_getLast _ hne, rfl⟩

/-- Witness for C10 at the empty list and at a one-record list. -/
theorem empty_state_render_witness :
    render ([] : List PORecord) = .emptyInfo "No purchase orders available." ∧
    ∃ last, [demoRec].getLast? = some last ∧
      render [demoRec] = .controls (subjectOf last) (toCsv [demoRec])
        ([demoRec].map PORecord.po_id) :=
  ⟨(empty_state_render []).1 rfl,
    (empty_state_render [demoRec]).2 (List.cons_ne_nil demoRec [])⟩

end AutomaticPO
